import Mathlib

/-!
Verification of the gpu_dispatch coordination engine.

This file gives a shallow embedding of the core of the repository:
the result-message protocol (protocol.py), the worker runtime loop
(worker.py), and the controller: constructor validation, feeder thread,
monitor loop and shutdown sequence (dispatcher.py), together with the
statistics overlay exit hook (ui/rich_dispatcher.py).  Payloads are
opaque to the dispatcher, so they appear as a type parameter.
Machine floats used for task_timeout are modelled as rationals, and
the Python int() conversion as truncation toward zero.
-/

namespace GpuDispatch

/-- Result message variants flowing from workers to the monitor
(protocol.py).  Field order and names follow the dataclasses; the
timeout field of TaskTimeout carries the configured task_timeout,
which may be absent (None in the source). -/
inductive Msg (α : Type) : Type
  | taskStarted (task_id : ℕ) (worker_id : ℕ)
  | taskSuccess (task_id : ℕ) (data : α) (worker_id : ℕ)
  | taskError (task_id : ℕ) (error : String) (worker_id : ℕ)
  | taskTimeout (task_id : ℕ) (timeout : Option ℚ) (worker_id : ℕ)
  | setupFailed (gpu_id : ℕ) (error : String)
  | cleanupFailed (gpu_id : ℕ) (error : String)
  deriving DecidableEq

/-- Python int() applied to a rational: truncation toward zero. -/
def pyTrunc (q : ℚ) : ℤ := if 0 ≤ q then ⌊q⌋ else ⌈q⌉

/-- The alarm duration armed before each task when task_timeout is
configured (worker.py line 71): max(1, int(task_timeout + 0.5)). -/
def alarmSeconds (task_timeout : ℚ) : ℤ := max 1 (pyTrunc (task_timeout + 1/2))

/-- Configuration errors raised synchronously by the Dispatcher
constructor (dispatcher.py lines 55-59). -/
inductive InitError : Type
  | typeError (msg : String)
  | valueError (msg : String)
  deriving DecidableEq

/-- The state stored by a successfully constructed Dispatcher
(dispatcher.py lines 61-64). -/
structure DispatcherCfg : Type where
  gpu_ids : List ℤ
  queue_size : ℤ
  suppress_worker_output : Bool
  deriving DecidableEq

/-- Dispatcher.__init__ (dispatcher.py lines 48-67): it checks that
worker_cls inherits from BaseWorker and that gpu_ids is non-empty
(Python truthiness of a list), then stores the arguments.  No other
validation is performed. -/
def dispatcherInit (worker_cls_is_base_worker_subclass : Bool)
    (gpu_ids : List ℤ) (queue_size : ℤ) (suppress_worker_output : Bool) :
    Except InitError DispatcherCfg :=
  if ¬ worker_cls_is_base_worker_subclass then
    Except.error (InitError.typeError "worker_cls must inherit from BaseWorker")
  else if gpu_ids.isEmpty then
    Except.error (InitError.valueError "gpu_ids cannot be empty")
  else
    Except.ok ⟨gpu_ids, queue_size, suppress_worker_output⟩

/-- Whether construction of the Dispatcher succeeds without raising. -/
def initSucceeds (worker_cls_is_base_worker_subclass : Bool)
    (gpu_ids : List ℤ) (queue_size : ℤ) (suppress_worker_output : Bool) : Bool :=
  match dispatcherInit worker_cls_is_base_worker_subclass gpu_ids queue_size
      suppress_worker_output with
  | Except.ok _ => true
  | Except.error _ => false

/-- C2 counterexample: at task_timeout = 1 the code arms
max(1, int(1 + 0.5)) = 1 second, while the claimed ceiling formula
gives max(1, 2) = 2 seconds; 1.5 is a non-integer value of
task_timeout + 0.5 yet the armed duration is not the least integer
greater than it. -/
theorem C2_counterexample :
    alarmSeconds 1 = 1 ∧ max 1 ⌈(1 : ℚ) + 1/2⌉ = 2 := by
  constructor
  · have h1 : ((1 : ℚ) + 1/2) = 3/2 := by norm_num
    have h2 : ⌊(3/2 : ℚ)⌋ = 1 := by
      rw [Int.floor_eq_iff] <;> norm_num
    rw [alarmSeconds, pyTrunc, h1, if_pos (by norm_num), h2]
    decide
  · have h3 : ⌈(1 : ℚ) + 1/2⌉ = 2 := by
      rw [Int.ceil_eq_iff] <;> norm_num
    rw [h3]
    decide

/-- C2 (amended): for every non-negative task_timeout the armed alarm
is max(1, floor(task_timeout + 1/2)) seconds - a round-half-up of
task_timeout to the nearest integer with a minimum of one second -
because Python int() truncates rather than taking a ceiling. -/
theorem C2_alarm_is_floor (t : ℚ) (h : 0 ≤ t) :
    alarmSeconds t = max 1 ⌊t + 1/2⌋ := by
  rw [alarmSeconds, pyTrunc, if_pos (by linarith)]

/-- Witness for C2_alarm_is_floor at the concrete input t = 1. -/
theorem C2_alarm_is_floor_witness :
    alarmSeconds 1 = max 1 ⌊(1 : ℚ) + 1/2⌋ :=
  C2_alarm_is_floor 1 (by norm_num)

/-- C3 counterexample: with a valid worker class and non-empty device
list but queue_size = 0 (which violates queue_size at least 1), the
constructor still succeeds - queue_size is never validated. -/
theorem C3_counterexample :
    initSucceeds true [0] 0 false = true ∧ ¬ ((1 : ℤ) ≤ 0) := by
  constructor
  · rfl
  · decide

/-- C3 (amended): construction raises a configuration error if and
only if the worker class does not inherit from BaseWorker or the
device-id list is empty; queue_size is not validated at
construction. -/
theorem C3_init_ok_iff (sub : Bool) (gpu_ids : List ℤ) (queue_size : ℤ)
    (suppress : Bool) :
    initSucceeds sub gpu_ids queue_size suppress = (sub && !gpu_ids.isEmpty) := by
  cases sub <;> cases gpu_ids <;> simp [initSucceeds, dispatcherInit]

/-- Outcome of a single call to worker_instance.process(data): it
returns a value, raises a non-timeout exception whose captured stack
trace is the given string, or raises TimeoutError (either because the
alarm fired or because the user code raised it). -/
inductive ProcOutcome (α : Type) : Type
  | ok (result : α)
  | raises (trace : String)
  | timeoutRaised
  deriving DecidableEq

/-- One iteration of the environment seen by the worker dequeue loop
(worker.py lines 53-91): the shutdown check reads true, the queue get
times out (Empty), the item is the stop sentinel (None), or a task is
dequeued and process runs with the given outcome. -/
inductive LoopEvent (α : Type) : Type
  | shutdownSeen
  | queueEmpty
  | stopSentinel
  | task (task_id : ℕ) (data : α) (outcome : ProcOutcome α)
  deriving DecidableEq

/-- The worker dequeue loop (worker.py lines 53-91) run against a
finite list of environment iterations.  Returns the messages put on
the result channel, in order, together with a flag that is true when
the loop exited via break (shutdown seen or stop sentinel), in which
case cleanup runs afterwards.  The worker_id written into every
message is the gpu_id passed to the worker. -/
def workerLoop (gpu_id : ℕ) (task_timeout : Option ℚ) :
    List (LoopEvent α) → List (Msg α) × Bool
  | [] => ([], false)
  | LoopEvent.shutdownSeen :: _ => ([], true)
  | LoopEvent.queueEmpty :: rest => workerLoop gpu_id task_timeout rest
  | LoopEvent.stopSentinel :: _ => ([], true)
  | LoopEvent.task tid _ outcome :: rest =>
    let tail := workerLoop gpu_id task_timeout rest
    match outcome with
    | ProcOutcome.ok v =>
      (Msg.taskStarted tid gpu_id :: Msg.taskSuccess tid v gpu_id :: tail.1, tail.2)
    | ProcOutcome.raises e =>
      (Msg.taskStarted tid gpu_id :: Msg.taskError tid e gpu_id :: tail.1, tail.2)
    | ProcOutcome.timeoutRaised =>
      (Msg.taskStarted tid gpu_id :: Msg.taskTimeout tid task_timeout gpu_id :: tail.1, tail.2)

/-- The whole worker process body _worker_main (worker.py lines
31-98): setup, then the dequeue loop, then cleanup.  If setup raises,
a single SetupFailed is emitted and the function returns at once.
Cleanup runs only when the loop terminated via break; a raising
cleanup emits CleanupFailed. -/
def workerRun (gpu_id : ℕ) (task_timeout : Option ℚ)
    (setupError : Option String) (cleanupError : Option String)
    (events : List (LoopEvent α)) : List (Msg α) :=
  match setupError with
  | some e => [Msg.setupFailed gpu_id e]
  | none =>
    let r := workerLoop gpu_id task_timeout events
    r.1 ++
      (if r.2 then
        match cleanupError with
        | some e => [Msg.cleanupFailed gpu_id e]
        | none => []
      else [])

/-- Counts SetupFailed messages in a trace. -/
def countSetupFailed : List (Msg α) → ℕ
  | [] => 0
  | Msg.setupFailed _ _ :: rest => countSetupFailed rest + 1
  | _ :: rest => countSetupFailed rest

/-- Counts TaskError messages in a trace. -/
def countTaskError : List (Msg α) → ℕ
  | [] => 0
  | Msg.taskError _ _ _ :: rest => countTaskError rest + 1
  | _ :: rest => countTaskError rest

/-- Scans a trace keeping the set of (task_id, worker_id) pairs for
which a TaskStarted has been seen; accepts the trace when every
terminal message (TaskSuccess, TaskError, TaskTimeout) is preceded by
a TaskStarted with the same task_id and worker_id. -/
def startedBeforeTerminal (seen : List (ℕ × ℕ)) : List (Msg α) → Bool
  | [] => true
  | Msg.taskStarted t w :: rest => startedBeforeTerminal ((t, w) :: seen) rest
  | Msg.taskSuccess t _ w :: rest =>
    seen.contains (t, w) && startedBeforeTerminal seen rest
  | Msg.taskError t _ w :: rest =>
    seen.contains (t, w) && startedBeforeTerminal seen rest
  | Msg.taskTimeout t _ w :: rest =>
    seen.contains (t, w) && startedBeforeTerminal seen rest
  | Msg.setupFailed _ _ :: rest => startedBeforeTerminal seen rest
  | Msg.cleanupFailed _ _ :: rest => startedBeforeTerminal seen rest

lemma workerLoop_no_setupFailed (gpu_id : ℕ) (tt : Option ℚ)
    (events : List (LoopEvent α)) :
    countSetupFailed (workerLoop gpu_id tt events).1 = 0 := by
  induction events with
  | nil => rfl
  | cons e rest ih =>
    cases e with
    | shutdownSeen => rfl
    | queueEmpty => simpa [workerLoop] using ih
    | stopSentinel => rfl
    | task tid d outcome =>
      cases outcome <;> simpa [workerLoop, countSetupFailed] using ih

/-- C7: at most one SetupFailed is emitted per worker execution, and
if one is emitted then it is the only message that worker ever puts
on the result channel. -/
theorem C7_setup_failed_at_most_once (gpu_id : ℕ) (tt : Option ℚ)
    (setupError cleanupError : Option String) (events : List (LoopEvent α)) :
    countSetupFailed (workerRun gpu_id tt setupError cleanupError events) ≤ 1 ∧
    (∀ w e, Msg.setupFailed w e ∈ workerRun gpu_id tt setupError cleanupError events →
      workerRun gpu_id tt setupError cleanupError events = [Msg.setupFailed gpu_id e]) := by
  cases setupError with
  | some e0 =>
    refine ⟨by simp [workerRun, countSetupFailed], ?_⟩
    intro w e hmem
    simp only [workerRun, List.mem_singleton] at hmem
    cases hmem
    rfl
  | none =>
    have hzero : countSetupFailed (workerRun gpu_id tt none cleanupError events) = 0 := by
      have hcat : ∀ l1 l2 : List (Msg α),
          countSetupFailed (l1 ++ l2) = countSetupFailed l1 + countSetupFailed l2 := by
        intro l1 l2
        induction l1 with
        | nil => simp [countSetupFailed]
        | cons m r ih => cases m <;> simp [countSetupFailed, ih] <;> omega
      simp only [workerRun]
      rw [hcat, workerLoop_no_setupFailed]
      cases hbr : (workerLoop gpu_id tt events).2 <;>
        cases cleanupError <;> simp [countSetupFailed]
    constructor
    · omega
    · intro w e hmem
      exfalso
      revert hzero hmem
      generalize workerRun gpu_id tt none cleanupError events = tr
      intro hzero hmem
      induction tr with
      | nil => simp at hmem
      | cons m r ih =>
        cases hmem with
        | head => simp [countSetupFailed] at hzero
        | tail _ h =>
          apply ih _ h
          cases m <;> simp [countSetupFailed] at hzero <;> omega

/-- Witness for C7_setup_failed_at_most_once: a worker whose setup
raises emits exactly the one SetupFailed message. -/
theorem C7_setup_failed_at_most_once_witness :
    countSetupFailed (workerRun (α := ℕ) 3 none (some "boom") none []) ≤ 1 ∧
    workerRun (α := ℕ) 3 none (some "boom") none [] = [Msg.setupFailed 3 "boom"] := by
  have h := C7_setup_failed_at_most_once (α := ℕ) 3 none (some "boom") none []
  exact ⟨h.1, h.2 3 "boom" (by simp [workerRun])⟩

/-- C6: a non-timeout exception in process yields exactly one
TaskError carrying the captured trace, emitted after TaskStarted, and
the loop then continues with the remaining iterations unchanged (the
worker stays alive); a TimeoutError likewise yields exactly one
TaskTimeout and the loop continues rather than exiting. -/
theorem C6_per_task_error_recovery (gpu_id : ℕ) (tt : Option ℚ) (tid : ℕ)
    (d : α) (e : String) (rest : List (LoopEvent α)) :
    workerLoop gpu_id tt (LoopEvent.task tid d (ProcOutcome.raises e) :: rest) =
      (Msg.taskStarted tid gpu_id :: Msg.taskError tid e gpu_id ::
        (workerLoop gpu_id tt rest).1, (workerLoop gpu_id tt rest).2) ∧
    workerLoop gpu_id tt (LoopEvent.task tid d ProcOutcome.timeoutRaised :: rest) =
      (Msg.taskStarted tid gpu_id :: Msg.taskTimeout tid tt gpu_id ::
        (workerLoop gpu_id tt rest).1, (workerLoop gpu_id tt rest).2) ∧
    countTaskError
        (workerLoop gpu_id tt (LoopEvent.task tid d (ProcOutcome.raises e) :: rest)).1 =
      countTaskError (workerLoop gpu_id tt rest).1 + 1 := by
  refine ⟨rfl, rfl, ?_⟩
  simp [workerLoop, countTaskError]

lemma startedBeforeTerminal_workerLoop (gpu_id : ℕ) (tt : Option ℚ)
    (events : List (LoopEvent α)) (seen : List (ℕ × ℕ))
    (suffix : List (Msg α))
    (hs : ∀ s : List (ℕ × ℕ), startedBeforeTerminal s suffix = true) :
    startedBeforeTerminal seen ((workerLoop gpu_id tt events).1 ++ suffix) = true := by
  induction events generalizing seen with
  | nil => simpa [workerLoop] using hs seen
  | cons e rest ih =>
    cases e with
    | shutdownSeen => simpa [workerLoop] using hs seen
    | queueEmpty => simpa [workerLoop] using ih seen
    | stopSentinel => simpa [workerLoop] using hs seen
    | task tid d outcome =>
      cases outcome with
      | ok v =>
        simp only [workerLoop, List.cons_append, startedBeforeTerminal]
        rw [List.contains_cons]
        simpa using ih ((tid, gpu_id) :: seen)
      | raises e0 =>
        simp only [workerLoop, List.cons_append, startedBeforeTerminal]
        rw [List.contains_cons]
        simpa using ih ((tid, gpu_id) :: seen)
      | timeoutRaised =>
        simp only [workerLoop, List.cons_append, startedBeforeTerminal]
        rw [List.contains_cons]
        simpa using ih ((tid, gpu_id) :: seen)

/-- C8: in every worker execution, also those in which the timeout
alarm fires, each terminal message (TaskSuccess, TaskError or
TaskTimeout) for a task is preceded on the result channel by the
TaskStarted message that the same worker emitted for that task. -/
theorem C8_started_precedes_terminal (gpu_id : ℕ) (tt : Option ℚ)
    (setupError cleanupError : Option String) (events : List (LoopEvent α)) :
    startedBeforeTerminal []
      (workerRun gpu_id tt setupError cleanupError events) = true := by
  cases setupError with
  | some e => rfl
  | none =>
    apply startedBeforeTerminal_workerLoop
    intro s
    cases hbr : (workerLoop gpu_id tt events).2 <;>
      cases cleanupError <;> simp [startedBeforeTerminal]

/-- C10: a TimeoutError raised inside process is reported as
TaskTimeout, never as TaskError, and the timeout field of the message
is the configured task_timeout value - including the case where no
task_timeout was configured, in which the field is none. -/
theorem C10_user_timeout_reported_as_timeout (gpu_id : ℕ) (tt : Option ℚ)
    (tid : ℕ) (d : α) (rest : List (LoopEvent α)) :
    workerLoop gpu_id tt (LoopEvent.task tid d ProcOutcome.timeoutRaised :: rest) =
      (Msg.taskStarted tid gpu_id :: Msg.taskTimeout tid tt gpu_id ::
        (workerLoop gpu_id tt rest).1, (workerLoop gpu_id tt rest).2) ∧
    workerLoop gpu_id none (LoopEvent.task tid d ProcOutcome.timeoutRaised :: rest) =
      (Msg.taskStarted tid gpu_id :: Msg.taskTimeout tid none gpu_id ::
        (workerLoop gpu_id none rest).1, (workerLoop gpu_id none rest).2) ∧
    countTaskError
        (workerLoop gpu_id tt (LoopEvent.task tid d ProcOutcome.timeoutRaised :: rest)).1 =
      countTaskError (workerLoop gpu_id tt rest).1 := by
  refine ⟨rfl, rfl, ?_⟩
  simp [workerLoop, countTaskError]

/-- Environment of one feeder loop iteration (dispatcher.py lines
174-187), after an item has been pulled from the generator: the
shutdown flag is seen set at the top-of-loop check; or it becomes set
while the bounded put is retried (the put never happens); or the put
succeeds and the flag is seen set at the check after the put; or the
put succeeds and the flag is still clear, so task_id is
incremented. -/
inductive IterEnv : Type
  | putOk
  | shutdownAtTop
  | shutdownDuringPut
  | putThenShutdown
  deriving DecidableEq

/-- What the feeder leaves behind: the (task_id, payload) pairs it
put on the task channel in order, the count it publishes into
task_count in the finally block, the number of items it pulled from
the generator, and the feeder-done flag set in the finally block. -/
structure FeederResult (α : Type) : Type where
  enqueued : List (ℕ × α)
  published : ℕ
  itemsRead : ℕ
  feederDone : Bool
  deriving DecidableEq

/-- The feeder loop (dispatcher.py lines 173-193).  The environment
of iteration number i is envs i; iteration numbers count items pulled
from the generator. -/
def feederGo (envs : ℕ → IterEnv) :
    List α → ℕ → ℕ → List (ℕ × α) → FeederResult α
  | [], task_id, r, acc => ⟨acc, task_id, r, true⟩
  | d :: rest, task_id, r, acc =>
    match envs r with
    | IterEnv.shutdownAtTop => ⟨acc, task_id, r + 1, true⟩
    | IterEnv.shutdownDuringPut => ⟨acc, task_id, r + 1, true⟩
    | IterEnv.putThenShutdown => ⟨acc ++ [(task_id, d)], task_id, r + 1, true⟩
    | IterEnv.putOk => feederGo envs rest (task_id + 1) (r + 1) (acc ++ [(task_id, d)])

/-- Dispatcher._feeder run on a finite input stream. -/
def feederRun (items : List α) (envs : ℕ → IterEnv) : FeederResult α :=
  feederGo envs items 0 0 []

lemma feederGo_shape (envs : ℕ → IterEnv) (items : List α) :
    ∀ (t r : ℕ) (acc : List (ℕ × α)),
    ∃ k,
      (feederGo envs items t r acc).enqueued.map Prod.fst =
        acc.map Prod.fst ++ (List.range k).map (t + ·) ∧
      ((feederGo envs items t r acc).published = t + k ∧
          (feederGo envs items t r acc).itemsRead = r + k ∨
        (feederGo envs items t r acc).published = t + k ∧
          (feederGo envs items t r acc).itemsRead = r + k + 1 ∨
        (feederGo envs items t r acc).published + 1 = t + k ∧
          (feederGo envs items t r acc).itemsRead = r + k) ∧
      (feederGo envs items t r acc).feederDone = true := by
  induction items with
  | nil =>
    intro t r acc
    exact ⟨0, by simp [feederGo], Or.inl (by simp [feederGo]), rfl⟩
  | cons d rest ih =>
    intro t r acc
    cases he : envs r with
    | shutdownAtTop =>
      refine ⟨0, ?_, Or.inr (Or.inl ?_), ?_⟩ <;> simp [feederGo, he]
    | shutdownDuringPut =>
      refine ⟨0, ?_, Or.inr (Or.inl ?_), ?_⟩ <;> simp [feederGo, he]
    | putThenShutdown =>
      refine ⟨1, ?_, Or.inr (Or.inr ?_), ?_⟩
      · have hr1 : List.range 1 = [0] := rfl
        simp [feederGo, he, hr1]
      · simp [feederGo, he]
      · simp [feederGo, he]
    | putOk =>
      obtain ⟨k, hids, hcount, hdone⟩ := ih (t + 1) (r + 1) (acc ++ [(t, d)])
      refine ⟨k + 1, ?_, ?_, ?_⟩
      · have hexp : feederGo envs (d :: rest) t r acc =
            feederGo envs rest (t + 1) (r + 1) (acc ++ [(t, d)]) := by
          simp [feederGo, he]
        rw [hexp, hids]
        rw [List.range_succ_eq_map]
        simp [List.map_map, Function.comp]
        intro a _
        omega
      · have hexp : feederGo envs (d :: rest) t r acc =
            feederGo envs rest (t + 1) (r + 1) (acc ++ [(t, d)]) := by
          simp [feederGo, he]
        rw [hexp]
        omega
      · have hexp : feederGo envs (d :: rest) t r acc =
            feederGo envs rest (t + 1) (r + 1) (acc ++ [(t, d)]) := by
          simp [feederGo, he]
        rw [hexp, hdone]

lemma feederGo_no_shutdown (envs : ℕ → IterEnv) (hok : ∀ i, envs i = IterEnv.putOk)
    (items : List α) :
    ∀ (t r : ℕ) (acc : List (ℕ × α)),
    (feederGo envs items t r acc).published = t + items.length ∧
      (feederGo envs items t r acc).itemsRead = r + items.length := by
  induction items with
  | nil => intro t r acc; simp [feederGo]
  | cons d rest ih =>
    intro t r acc
    have hexp : feederGo envs (d :: rest) t r acc =
        feederGo envs rest (t + 1) (r + 1) (acc ++ [(t, d)]) := by
      simp [feederGo, hok r]
    rw [hexp]
    have := ih (t + 1) (r + 1) (acc ++ [(t, d)])
    constructor <;> simp only [List.length_cons] <;> omega

/-- C5 counterexample: with input stream of two items and a shutdown
flag that becomes set between the successful put of task 0 and the
subsequent check, the feeder enqueues task_id 0 (one item read from
the stream) but publishes the count 0, so the published count is
neither the number of items read nor the number of ids enqueued. -/
theorem C5_counterexample :
    ¬ ((feederRun [10, 20] (fun _ => IterEnv.putThenShutdown)).published =
        (feederRun [10, 20] (fun _ => IterEnv.putThenShutdown)).itemsRead) := by
  decide

/-- C5 (amended): the task_id values the feeder enqueues always form
a contiguous initial segment of the naturals, of some length M; the
published count equals M or M - 1 (the latter exactly when shutdown
was observed right after the last successful put), the number of
items read from the stream exceeds the published count by at most
one, and the feeder-done flag is always set on exit; when the
shutdown flag is never observed set, the enqueued ids are exactly
the initial segment of length itemsRead and the published count
equals the number of items read, which is the whole stream. -/
theorem C5_feeder_ids_contiguous (items : List α) (envs : ℕ → IterEnv) :
    (∃ M,
      (feederRun items envs).enqueued.map Prod.fst = List.range M ∧
      ((feederRun items envs).published = M ∧
          (feederRun items envs).itemsRead = M ∨
        (feederRun items envs).published = M ∧
          (feederRun items envs).itemsRead = M + 1 ∨
        (feederRun items envs).published + 1 = M ∧
          (feederRun items envs).itemsRead = M)) ∧
    (feederRun items envs).feederDone = true ∧
    ((∀ i, envs i = IterEnv.putOk) →
      (feederRun items envs).published = items.length ∧
      (feederRun items envs).itemsRead = items.length) := by
  obtain ⟨k, hids, hcount, hdone⟩ := feederGo_shape envs items 0 0 []
  refine ⟨⟨k, ?_, ?_⟩, hdone, ?_⟩
  · simp only [feederRun] at hids ⊢
    rw [hids]
    simp
  · simp only [feederRun] at hcount ⊢
    omega
  · intro hok
    have := feederGo_no_shutdown envs hok items 0 0 []
    simp only [feederRun]
    omega

/-- Witness for C5_feeder_ids_contiguous: a two-item stream with no
shutdown enqueues ids 0 and 1 and publishes the count 2. -/
theorem C5_feeder_ids_contiguous_witness :
    (feederRun [10, 20] (fun _ => IterEnv.putOk)).feederDone = true ∧
    (feederRun [10, 20] (fun _ => IterEnv.putOk)).published = 2 ∧
    (feederRun [10, 20] (fun _ => IterEnv.putOk)).itemsRead = 2 := by
  have h := C5_feeder_ids_contiguous [10, 20] (fun _ => IterEnv.putOk)
  have h3 := h.2.2 (fun _ => rfl)
  exact ⟨h.2.1, by simpa using h3.1, by simpa using h3.2⟩

/-- One iteration of the monitor loop environment (dispatcher.py
lines 253-292): the value of the shutdown flag at the top check, the
value of the feeder-stop flag, and the outcome of the 0.1 s poll of
the result channel (none models the Empty exception). -/
structure MonIter (α : Type) : Type where
  shutdownSet : Bool
  feederStopSet : Bool
  poll : Option (Msg α)
  deriving DecidableEq

/-- Which of the optional callbacks were provided to run();
on_success is mandatory and always invoked. -/
structure CbFlags : Type where
  hasOnError : Bool
  hasOnTimeout : Bool
  hasOnSetupFail : Bool
  hasOnTaskStart : Bool
  deriving DecidableEq

/-- Observable callback invocations made by the monitor, in order,
plus the printed cleanup warning. -/
inductive CbEvent (α : Type) : Type
  | onSuccess (task_id : ℕ) (data : α) (worker_id : ℕ)
  | onError (task_id : ℕ) (error : String) (worker_id : ℕ)
  | onTimeout (task_id : ℕ) (timeout : Option ℚ) (worker_id : ℕ)
  | onSetupFail (gpu_id : ℕ) (error : String)
  | onTaskStart (task_id : ℕ) (worker_id : ℕ)
  | warnCleanupFailed (gpu_id : ℕ)
  deriving DecidableEq

/-- The one fatal error the monitor loop can raise (dispatcher.py
line 289). -/
inductive MonFatal : Type
  | allWorkersFailedSetup
  deriving DecidableEq

/-- The monitor loop Dispatcher._monitor (dispatcher.py lines
237-292) run against a finite list of iteration environments.  N is
the value read from task_count once the feeder-stop flag is set
(the feeder writes it before setting the flag); active is the
active-worker count, received the results_received counter.  The
result is the list of callback invocations together with the fatal
error, if the loop raised. -/
def monitorGo (flags : CbFlags) (N : ℕ) :
    List (MonIter α) → ℤ → ℕ → List (CbEvent α) × Option MonFatal
  | [], _, _ => ([], none)
  | it :: rest, active, received =>
    if it.shutdownSet then ([], none)
    else if it.feederStopSet && decide (N ≤ received) then ([], none)
    else
      match it.poll with
      | none => monitorGo flags N rest active received
      | some (Msg.taskStarted t w) =>
        let tail := monitorGo flags N rest active received
        ((if flags.hasOnTaskStart then [CbEvent.onTaskStart t w] else []) ++ tail.1,
          tail.2)
      | some (Msg.taskSuccess t d w) =>
        let tail := monitorGo flags N rest active (received + 1)
        (CbEvent.onSuccess t d w :: tail.1, tail.2)
      | some (Msg.taskError t e w) =>
        let tail := monitorGo flags N rest active (received + 1)
        ((if flags.hasOnError then [CbEvent.onError t e w] else []) ++ tail.1, tail.2)
      | some (Msg.taskTimeout t tmo w) =>
        let tail := monitorGo flags N rest active (received + 1)
        ((if flags.hasOnTimeout then [CbEvent.onTimeout t tmo w] else []) ++ tail.1,
          tail.2)
      | some (Msg.setupFailed g e) =>
        let cbs := if flags.hasOnSetupFail then [CbEvent.onSetupFail g e] else []
        if active - 1 = 0 then (cbs, some MonFatal.allWorkersFailedSetup)
        else
          let tail := monitorGo flags N rest (active - 1) received
          (cbs ++ tail.1, tail.2)
      | some (Msg.cleanupFailed g _) =>
        let tail := monitorGo flags N rest active received
        (CbEvent.warnCleanupFailed g :: tail.1, tail.2)

/-- The monitor started with the initial state of _monitor: active
workers = number of gpu ids, results received = 0. -/
def monitorRun (flags : CbFlags) (N numWorkers : ℕ)
    (inputs : List (MonIter α)) : List (CbEvent α) × Option MonFatal :=
  monitorGo flags N inputs (numWorkers : ℤ) 0

/-- Counts iterations whose poll yielded a SetupFailed message. -/
def countSetupPolls : List (MonIter α) → ℕ
  | [] => 0
  | it :: rest =>
    (match it.poll with
     | some (Msg.setupFailed _ _) => 1
     | _ => 0) + countSetupPolls rest

lemma monitorGo_raise_needs_setup_failures (flags : CbFlags) (N : ℕ) :
    ∀ (inputs : List (MonIter α)) (active : ℤ) (received : ℕ),
    (monitorGo flags N inputs active received).2.isSome = true →
    active ≤ (countSetupPolls inputs : ℤ) := by
  intro inputs
  induction inputs with
  | nil => intro active received h; simp [monitorGo] at h
  | cons it rest ih =>
    intro active received h
    by_cases hsd : it.shutdownSet
    · simp [monitorGo, hsd] at h
    · by_cases hfs : (it.feederStopSet && decide (N ≤ received)) = true
      · simp [monitorGo, hsd, hfs] at h
      · cases hpoll : it.poll with
        | none =>
          have := ih active received (by simpa [monitorGo, hsd, hfs, hpoll] using h)
          simp [countSetupPolls, hpoll]
          omega
        | some m =>
          cases m with
          | taskStarted t w =>
            have := ih active received (by simpa [monitorGo, hsd, hfs, hpoll] using h)
            simp [countSetupPolls, hpoll]
            omega
          | taskSuccess t d w =>
            have := ih active (received + 1)
              (by simpa [monitorGo, hsd, hfs, hpoll] using h)
            simp [countSetupPolls, hpoll]
            omega
          | taskError t e w =>
            have := ih active (received + 1)
              (by simpa [monitorGo, hsd, hfs, hpoll] using h)
            simp [countSetupPolls, hpoll]
            omega
          | taskTimeout t tmo w =>
            have := ih active (received + 1)
              (by simpa [monitorGo, hsd, hfs, hpoll] using h)
            simp [countSetupPolls, hpoll]
            omega
          | setupFailed g e =>
            by_cases hz : active - 1 = 0
            · simp [countSetupPolls, hpoll]
              have hc : (0 : ℤ) ≤ (countSetupPolls rest : ℤ) := by positivity
              omega
            · have := ih (active - 1) received
                (by simpa [monitorGo, hsd, hfs, hpoll, hz] using h)
              simp [countSetupPolls, hpoll]
              omega
          | cleanupFailed g e =>
            have := ih active received
              (by simpa [monitorGo, hsd, hfs, hpoll] using h)
            simp [countSetupPolls, hpoll]
            omega

lemma monitorGo_all_setup_raises (flags : CbFlags) (N : ℕ) :
    ∀ (inputs : List (MonIter α)) (active : ℤ) (received : ℕ),
    (∀ it ∈ inputs, it.shutdownSet = false ∧ it.feederStopSet = false ∧
      (it.poll = none ∨ ∃ g e, it.poll = some (Msg.setupFailed g e))) →
    1 ≤ active → active ≤ (countSetupPolls inputs : ℤ) →
    (monitorGo flags N inputs active received).2 = some MonFatal.allWorkersFailedSetup ∧
    ∀ cb ∈ (monitorGo flags N inputs active received).1,
      ∃ g e, cb = CbEvent.onSetupFail g e := by
  intro inputs
  induction inputs with
  | nil =>
    intro active received hvalid h1 hle
    simp [countSetupPolls] at hle
    omega
  | cons it rest ih =>
    intro active received hvalid h1 hle
    obtain ⟨hsd, hfs, hpoll⟩ := hvalid it (List.mem_cons_self it rest)
    have hvr : ∀ x ∈ rest, x.shutdownSet = false ∧ x.feederStopSet = false ∧
        (x.poll = none ∨ ∃ g e, x.poll = some (Msg.setupFailed g e)) :=
      fun x hx => hvalid x (List.mem_cons_of_mem it hx)
    cases hpoll with
    | inl hnone =>
      have hle2 : active ≤ (countSetupPolls rest : ℤ) := by
        simp [countSetupPolls, hnone] at hle
        omega
      have := ih active received hvr h1 hle2
      simpa [monitorGo, hsd, hfs, hnone] using this
    | inr hsome =>
      obtain ⟨g, e, hpe⟩ := hsome
      by_cases hz : active - 1 = 0
      · constructor
        · simp [monitorGo, hsd, hfs, hpe, hz]
        · intro cb hcb
          simp [monitorGo, hsd, hfs, hpe, hz] at hcb
          cases hflag : flags.hasOnSetupFail with
          | true => simp [hflag] at hcb; exact ⟨g, e, hcb⟩
          | false => simp [hflag] at hcb
      · have h1r : (1 : ℤ) ≤ active - 1 := by omega
        have hler : active - 1 ≤ (countSetupPolls rest : ℤ) := by
          simp [countSetupPolls, hpe] at hle
          omega
        obtain ⟨htail2, htail1⟩ := ih (active - 1) received hvr h1r hler
        constructor
        · simpa [monitorGo, hsd, hfs, hpe, hz] using htail2
        · intro cb hcb
          simp [monitorGo, hsd, hfs, hpe, hz] at hcb
          rcases hcb with hcb | hcb
          · cases hflag : flags.hasOnSetupFail with
            | true => simp [hflag] at hcb; exact ⟨g, e, hcb⟩
            | false => simp [hflag] at hcb
          · exact htail1 cb hcb

/-- C1: when every worker fails setup - the monitor sees only
SetupFailed messages, as many as there are workers, with the
shutdown and feeder-stop flags never set - the active-worker count
is decremented to zero and the monitor raises the fatal
all-workers-failed-setup error; every callback it delivered is an
on_setup_fail, so no success callback fires; and in general the
monitor loop can only raise after having received at least as many
SetupFailed messages as it has active workers, which is its only
raising condition. -/
theorem C1_all_setup_failures_fatal {α : Type} (flags : CbFlags) (N W : ℕ)
    (inputs : List (MonIter α)) (hW : 1 ≤ W)
    (hvalid : ∀ it ∈ inputs, it.shutdownSet = false ∧ it.feederStopSet = false ∧
      (it.poll = none ∨ ∃ g e, it.poll = some (Msg.setupFailed g e)))
    (hcount : W ≤ countSetupPolls inputs) :
    (monitorRun flags N W inputs).2 = some MonFatal.allWorkersFailedSetup ∧
    (∀ cb ∈ (monitorRun flags N W inputs).1, ∃ g e, cb = CbEvent.onSetupFail g e) ∧
    (∀ (inputs2 : List (MonIter α)) (active : ℤ) (received : ℕ),
      (monitorGo flags N inputs2 active received).2.isSome = true →
      active ≤ (countSetupPolls inputs2 : ℤ)) := by
  have h := monitorGo_all_setup_raises flags N inputs (W : ℤ) 0 hvalid
    (by exact_mod_cast hW) (by exact_mod_cast hcount)
  exact ⟨h.1, h.2, monitorGo_raise_needs_setup_failures flags N⟩

/-- Witness for C1_all_setup_failures_fatal: one worker, one
SetupFailed message, all callbacks provided; the run raises and the
only callback delivered is the single on_setup_fail. -/
theorem C1_all_setup_failures_fatal_witness :
    (monitorRun (α := ℕ) ⟨true, true, true, true⟩ 0 1
        [⟨false, false, some (Msg.setupFailed 0 "boom")⟩]).2 =
      some MonFatal.allWorkersFailedSetup ∧
    ∀ cb ∈ (monitorRun (α := ℕ) ⟨true, true, true, true⟩ 0 1
        [⟨false, false, some (Msg.setupFailed 0 "boom")⟩]).1,
      ∃ g e, cb = CbEvent.onSetupFail g e := by
  have h := C1_all_setup_failures_fatal (α := ℕ) ⟨true, true, true, true⟩ 0 1
    [⟨false, false, some (Msg.setupFailed 0 "boom")⟩] (le_refl 1)
    (by
      intro it hit
      simp only [List.mem_singleton] at hit
      subst hit
      exact ⟨rfl, rfl, Or.inr ⟨0, "boom", rfl⟩⟩)
    (by decide)
  exact ⟨h.1, h.2.1⟩

/-- The externally visible steps of the finally block of
Dispatcher.run and of the KeyboardInterrupt handler before it
(dispatcher.py lines 148-163). -/
inductive ShutdownStep : Type
  | restoreSignalHandlers
  | invokeOnExit
  | setShutdownSignal
  | setFeederStop
  | enqueueStopSentinels
  | joinTerminateKillWorkers
  | drainAndCloseChannels
  deriving DecidableEq

/-- The order in which the finally block of Dispatcher.run performs
its steps (dispatcher.py lines 150-163): restore handlers when they
were installed (main thread), invoke on_exit when provided, set the
shutdown signal, set the feeder-stop flag, then
_shutdown_workers (stop sentinels, join, terminate, kill), then
_cleanup_queues (drain and close both channels). -/
def runFinallySteps (is_main_thread : Bool) (has_on_exit : Bool) :
    List ShutdownStep :=
  (if is_main_thread then [ShutdownStep.restoreSignalHandlers] else []) ++
  (if has_on_exit then [ShutdownStep.invokeOnExit] else []) ++
  [ShutdownStep.setShutdownSignal, ShutdownStep.setFeederStop,
    ShutdownStep.enqueueStopSentinels, ShutdownStep.joinTerminateKillWorkers,
    ShutdownStep.drainAndCloseChannels]

/-- Modelled from the claim and spec section 4.E step 7: the order
the specification asserts for the shutdown sequence - shutdown
signal and feeder-stop flag first, then on_exit, then sentinels and
joins, then drain and close, signal-handler restoration last.  This
is a refinement target to compare against runFinallySteps. -/
def specShutdownSteps (is_main_thread : Bool) (has_on_exit : Bool) :
    List ShutdownStep :=
  [ShutdownStep.setShutdownSignal, ShutdownStep.setFeederStop] ++
  (if has_on_exit then [ShutdownStep.invokeOnExit] else []) ++
  [ShutdownStep.enqueueStopSentinels, ShutdownStep.joinTerminateKillWorkers,
    ShutdownStep.drainAndCloseChannels] ++
  (if is_main_thread then [ShutdownStep.restoreSignalHandlers] else [])

/-- C4 counterexample: on the main thread with an on_exit callback
provided, the order the code executes differs from the order the
claim states - the code restores the signal handlers first and sets
the shutdown signal only after on_exit. -/
theorem C4_counterexample :
    ¬ (runFinallySteps true true = specShutdownSteps true true) := by
  decide

/-- C4 (amended): on every exit of run() the shutdown sequence first
restores the original signal handlers (when it installed them, in
which case that is the very first step), then invokes on_exit (if
provided), then sets the shutdown signal, then the feeder-stop flag,
then enqueues stop sentinels and joins, terminates or kills the
workers, and drains and closes both channels last. -/
theorem C4_shutdown_order (is_main_thread has_on_exit : Bool) :
    (runFinallySteps is_main_thread has_on_exit).indexOf
        ShutdownStep.setShutdownSignal <
      (runFinallySteps is_main_thread has_on_exit).indexOf
        ShutdownStep.setFeederStop ∧
    (runFinallySteps is_main_thread has_on_exit).indexOf
        ShutdownStep.setFeederStop <
      (runFinallySteps is_main_thread has_on_exit).indexOf
        ShutdownStep.enqueueStopSentinels ∧
    (runFinallySteps is_main_thread has_on_exit).indexOf
        ShutdownStep.enqueueStopSentinels <
      (runFinallySteps is_main_thread has_on_exit).indexOf
        ShutdownStep.joinTerminateKillWorkers ∧
    (runFinallySteps is_main_thread has_on_exit).indexOf
        ShutdownStep.joinTerminateKillWorkers <
      (runFinallySteps is_main_thread has_on_exit).indexOf
        ShutdownStep.drainAndCloseChannels ∧
    (is_main_thread = true →
      (runFinallySteps is_main_thread has_on_exit).indexOf
        ShutdownStep.restoreSignalHandlers = 0) ∧
    (has_on_exit = true →
      (runFinallySteps is_main_thread has_on_exit).indexOf
          ShutdownStep.invokeOnExit <
        (runFinallySteps is_main_thread has_on_exit).indexOf
          ShutdownStep.setShutdownSignal) ∧
    (runFinallySteps is_main_thread has_on_exit).getLast? =
      some ShutdownStep.drainAndCloseChannels := by
  cases is_main_thread <;> cases has_on_exit <;> decide

/-- Witness for C4_shutdown_order at is_main_thread = true,
has_on_exit = true: handler restoration is the first step and
on_exit precedes the setting of the shutdown signal. -/
theorem C4_shutdown_order_witness :
    (runFinallySteps true true).indexOf ShutdownStep.restoreSignalHandlers = 0 ∧
    (runFinallySteps true true).indexOf ShutdownStep.invokeOnExit <
      (runFinallySteps true true).indexOf ShutdownStep.setShutdownSignal :=
  ⟨(C4_shutdown_order true true).2.2.2.2.1 rfl,
    (C4_shutdown_order true true).2.2.2.2.2.1 rfl⟩

/-- One per-worker status record of the statistics overlay
(ui/rich_dispatcher.py, _reset_stats lines 327-338). -/
structure WorkerStatsRec : Type where
  status : String
  current_task : Option ℕ
  task_start_time : Option ℚ
  last_duration : Option ℚ
  completed : ℕ
  failed : ℕ
  timeouts : ℕ
  deriving DecidableEq

/-- The per-record update performed by the exit hook
(ui/rich_dispatcher.py lines 201-205): records not marked error are
set to finished with current task and start time cleared; error
records are left untouched. -/
def finalizeWorkerStatus (ws : WorkerStatsRec) : WorkerStatsRec :=
  if ws.status ≠ "error" then
    ⟨"finished", none, none, ws.last_duration, ws.completed, ws.failed, ws.timeouts⟩
  else ws

/-- The overlay statistics fields touched by the exit hook: the end
time and the per-worker records keyed by gpu id. -/
structure OverlayStats : Type where
  end_time : Option ℚ
  gpu_status : List (ℕ × WorkerStatsRec)
  deriving DecidableEq

/-- The wrapped exit callback _wrap_exit_callback
(ui/rich_dispatcher.py lines 197-209): records the end time and
finalizes every per-worker record. -/
def exitHook (now : ℚ) (s : OverlayStats) : OverlayStats :=
  ⟨some now, s.gpu_status.map (fun p => (p.1, finalizeWorkerStatus p.2))⟩

/-- C9: when the exit hook runs, every per-worker record whose
status is not error is set to finished with its current task and
task start time cleared and all other fields preserved, and every
record already marked error is left unchanged. -/
theorem C9_exit_finalizes_statuses (now : ℚ) (s : OverlayStats) (g : ℕ)
    (ws : WorkerStatsRec) (hmem : (g, ws) ∈ s.gpu_status) :
    (g, finalizeWorkerStatus ws) ∈ (exitHook now s).gpu_status ∧
    (ws.status ≠ "error" →
      (finalizeWorkerStatus ws).status = "finished" ∧
      (finalizeWorkerStatus ws).current_task = none ∧
      (finalizeWorkerStatus ws).task_start_time = none ∧
      (finalizeWorkerStatus ws).last_duration = ws.last_duration ∧
      (finalizeWorkerStatus ws).completed = ws.completed ∧
      (finalizeWorkerStatus ws).failed = ws.failed ∧
      (finalizeWorkerStatus ws).timeouts = ws.timeouts) ∧
    (ws.status = "error" → finalizeWorkerStatus ws = ws) ∧
    (exitHook now s).end_time = some now := by
  refine ⟨?_, ?_, ?_, rfl⟩
  · exact List.mem_map.mpr ⟨(g, ws), hmem, rfl⟩
  · intro hne
    simp [finalizeWorkerStatus, hne]
  · intro heq
    simp [finalizeWorkerStatus, heq]

/-- Witness for C9_exit_finalizes_statuses: a processing record is
finalized to finished with its task cleared, in a two-record
overlay that also holds an error record. -/
theorem C9_exit_finalizes_statuses_witness :
    (finalizeWorkerStatus ⟨"processing", some 5, some 1, none, 2, 0, 0⟩).status =
      "finished" ∧
    (finalizeWorkerStatus ⟨"processing", some 5, some 1, none, 2, 0, 0⟩).current_task =
      none := by
  have h := C9_exit_finalizes_statuses 7
    ⟨none, [(0, ⟨"processing", some 5, some 1, none, 2, 0, 0⟩),
      (1, ⟨"error", none, none, none, 0, 0, 0⟩)]⟩
    0 ⟨"processing", some 5, some 1, none, 2, 0, 0⟩
    (by simp)
  have h2 := h.2.1 (by simp)
  exact ⟨h2.1, h2.2.1⟩

end GpuDispatch
